import Mathlib

/-!
Verification of the LLM client layer (`src/llm.py`) of the
data-analysis-agent repository.

The two functions under study are `get_completion` (raw completion, one
transport call, no retry) and `get_completion_structured` (schema-bound
completion with a bounded retry loop).

Shallow embedding choices:
* The remote transport is modelled as an oracle: for the structured path,
  a function `transport : Nat → Except ε α` giving the outcome of the
  attempt with a given index (the Python call
  `client.beta.chat.completions.parse(...)` either raises an exception,
  modelled as `.error e`, or returns a response whose
  `choices[0].message.parsed` field is the schema instance, modelled as
  `.ok a`).  For the raw path, a function
  `transport : RawRequest → Except ε ChatResponse`.
* `max_retries` is an `Int`, because Python's `range(max_retries + 1)`
  is well-defined (empty) for negative values, and the implicit `None`
  return when the loop body never runs is observable behaviour.
* `retry_delay` is a value of an arbitrary type `δ`: the code never
  computes with it, it only hands it to `asyncio.sleep`, so the trace
  records the sequence of slept delays.
* A call's observable behaviour is a trace: the result (returned value,
  raised error, or the implicit `None` fall-through), the number of
  transport invocations, the slept delays in order, and the requests
  issued in order.
-/

namespace Llm

/-- One entry of the `messages` list: in the source each call builds
`messages = [{"role": "user", "content": message}]`. -/
structure ChatMessage where
  role : String
  content : String
deriving DecidableEq, Repr

/-- The argument bundle of one `client.beta.chat.completions.parse` call in
`get_completion_structured`: model, messages, response_format and
max_completion_tokens.  `σ` is the type of schema descriptors
(`response_model` in the source). -/
structure StructuredRequest (σ : Type) where
  model : String
  messages : List ChatMessage
  response_format : σ
  max_completion_tokens : Int
deriving DecidableEq, Repr

/-- The request `get_completion_structured` builds on every iteration. -/
def structuredRequestOf (message model : String) (response_model : σ)
    (max_completion_tokens : Int) : StructuredRequest σ :=
  ⟨model, [⟨"user", message⟩], response_model, max_completion_tokens⟩

/-- Outcome of one call to `get_completion_structured`:
`returned a` models `return response.choices[0].message.parsed`,
`raised e` models `raise e`, and `noneFallthrough` models the implicit
`None` returned when the `for` loop body never executes. -/
inductive RunResult (ε α : Type) where
  | returned (a : α)
  | raised (e : ε)
  | noneFallthrough
deriving DecidableEq, Repr

/-- Observable trace of one `get_completion_structured` call: result,
number of transport invocations, delays slept (in order), and requests
issued (in order). -/
structure STrace (ε α δ σ : Type) where
  result : RunResult ε α
  invocations : Nat
  sleeps : List δ
  requests : List (StructuredRequest σ)
deriving DecidableEq, Repr

/-- The body of the `for attempt in range(max_retries + 1)` loop of
`get_completion_structured`, as structural recursion over the remaining
attempt indices.  On each index: build the messages and issue the request;
on success return the parsed object; on an exception, if
`attempt < max_retries` sleep `retry_delay` and continue, else re-raise. -/
def retryLoop (transport : Nat → Except ε α) (message model : String)
    (response_model : σ) (max_completion_tokens : Int)
    (max_retries : Int) (retry_delay : δ) :
    List Nat → STrace ε α δ σ
  | [] => ⟨.noneFallthrough, 0, [], []⟩
  | i :: rest =>
    let req := structuredRequestOf message model response_model max_completion_tokens
    match transport i with
    | .ok a => ⟨.returned a, 1, [], [req]⟩
    | .error e =>
      if (i : Int) < max_retries then
        let t := retryLoop transport message model response_model
          max_completion_tokens max_retries retry_delay rest
        ⟨t.result, t.invocations + 1, retry_delay :: t.sleeps, req :: t.requests⟩
      else
        ⟨.raised e, 1, [], [req]⟩

/-- Shallow embedding of `get_completion_structured` from `src/llm.py`:
iterate the loop body over the attempt indices `range(max_retries + 1)`
(empty when `max_retries < 0`, as in Python). -/
def get_completion_structured (transport : Nat → Except ε α)
    (message : String) (response_model : σ) (model : String)
    (max_completion_tokens : Int) (max_retries : Int) (retry_delay : δ) :
    STrace ε α δ σ :=
  retryLoop transport message model response_model max_completion_tokens
    max_retries retry_delay (List.range (max_retries + 1).toNat)

/-- The argument bundle of the single `client.chat.completions.create` call
in `get_completion`. -/
structure RawRequest where
  model : String
  messages : List ChatMessage
deriving DecidableEq, Repr

/-- The request `get_completion` builds. -/
def rawRequestOf (message model : String) : RawRequest :=
  ⟨model, [⟨"user", message⟩]⟩

/-- One element of `response.choices`. -/
structure Choice where
  message : ChatMessage
deriving DecidableEq, Repr

/-- The transport's response object for the raw path. -/
structure ChatResponse where
  choices : List Choice
deriving DecidableEq, Repr

/-- Outcome of one call to `get_completion`: `ok c` models returning
`response.choices[0].message.content`, `raised e` models a propagated
transport exception, `indexError` models the `IndexError` Python raises
on `choices[0]` when the choices list is empty. -/
inductive RawResult (ε : Type) where
  | ok (content : String)
  | raised (e : ε)
  | indexError
deriving DecidableEq, Repr

/-- Observable trace of one `get_completion` call. -/
structure RTrace (ε : Type) where
  result : RawResult ε
  invocations : Nat
  requests : List RawRequest
deriving DecidableEq, Repr

/-- Shallow embedding of `get_completion` from `src/llm.py`: build the
single user message, issue exactly one transport call, and return
`response.choices[0].message.content` unmodified; any transport error
propagates. -/
def get_completion (transport : RawRequest → Except ε ChatResponse)
    (message : String) (model : String) : RTrace ε :=
  let req := rawRequestOf message model
  match transport req with
  | .error e => ⟨.raised e, 1, [req]⟩
  | .ok resp =>
    match resp.choices with
    | [] => ⟨.indexError, 1, [req]⟩
    | c :: _ => ⟨.ok c.message.content, 1, [req]⟩

/-! ### Concrete transports used to exercise the definitions -/

/-- A transport that fails on attempts 0 and 1 and succeeds on attempt 2. -/
def flakyTransport : Nat → Except Unit Nat :=
  fun n => if n < 2 then .error () else .ok 42

/-- A transport that fails on every attempt with the same error. -/
def failingTransport : Nat → Except String Nat :=
  fun _ => .error "boom"

/-- A transport that succeeds immediately. -/
def okTransport : Nat → Except Unit Nat :=
  fun _ => .ok 42

/-- A raw transport that always fails. -/
def rawFailTransport : RawRequest → Except String ChatResponse :=
  fun _ => .error "down"

/-- A raw transport that answers every request with one choice reading
"pong". -/
def rawPongTransport : RawRequest → Except Unit ChatResponse :=
  fun _ => .ok ⟨[⟨⟨"assistant", "pong"⟩⟩]⟩

/-! ### Unfolding lemmas for the retry loop -/

variable {ε α δ σ : Type}

theorem retryLoop_nil (transport : Nat → Except ε α) (message model : String)
    (response_model : σ) (mct max_retries : Int) (retry_delay : δ) :
    retryLoop transport message model response_model mct max_retries retry_delay [] =
      ⟨.noneFallthrough, 0, [], []⟩ := rfl

theorem retryLoop_cons_ok {transport : Nat → Except ε α} {message model : String}
    {response_model : σ} {mct max_retries : Int} {retry_delay : δ}
    {i : Nat} {rest : List Nat} {a : α} (h : transport i = .ok a) :
    retryLoop transport message model response_model mct max_retries retry_delay (i :: rest) =
      ⟨.returned a, 1, [], [structuredRequestOf message model response_model mct]⟩ := by
  simp [retryLoop, h]

theorem retryLoop_cons_error_retry {transport : Nat → Except ε α} {message model : String}
    {response_model : σ} {mct max_retries : Int} {retry_delay : δ}
    {i : Nat} {rest : List Nat} {e : ε} (h : transport i = .error e)
    (hlt : (i : Int) < max_retries) :
    retryLoop transport message model response_model mct max_retries retry_delay (i :: rest) =
      ⟨(retryLoop transport message model response_model mct max_retries retry_delay rest).result,
       (retryLoop transport message model response_model mct max_retries retry_delay rest).invocations + 1,
       retry_delay ::
         (retryLoop transport message model response_model mct max_retries retry_delay rest).sleeps,
       structuredRequestOf message model response_model mct ::
         (retryLoop transport message model response_model mct max_retries retry_delay rest).requests⟩ := by
  simp [retryLoop, h, hlt]

theorem retryLoop_cons_error_raise {transport : Nat → Except ε α} {message model : String}
    {response_model : σ} {mct max_retries : Int} {retry_delay : δ}
    {i : Nat} {rest : List Nat} {e : ε} (h : transport i = .error e)
    (hge : ¬ (i : Int) < max_retries) :
    retryLoop transport message model response_model mct max_retries retry_delay (i :: rest) =
      ⟨.raised e, 1, [], [structuredRequestOf message model response_model mct]⟩ := by
  simp [retryLoop, h, hge]

/-! ### Behaviour of the loop on ranges of attempt indices -/

/-- If the first `m` attempts starting at `s` fail (each with retry budget
left) and attempt `s + m` succeeds with `a`, the loop returns `a` after
exactly `m + 1` invocations, `m` sleeps and `m + 1` identical requests. -/
theorem retryLoop_range'_success (transport : Nat → Except ε α) (message model : String)
    (response_model : σ) (mct max_retries : Int) (retry_delay : δ) (a : α) :
    ∀ (m s n : Nat), m < n →
    (∀ j, j < m → ∃ e, transport (s + j) = .error e) →
    (∀ j, j < m → ((s + j : Nat) : Int) < max_retries) →
    transport (s + m) = .ok a →
    retryLoop transport message model response_model mct max_retries retry_delay
        (List.range' s n) =
      ⟨.returned a, m + 1, List.replicate m retry_delay,
       List.replicate (m + 1) (structuredRequestOf message model response_model mct)⟩ := by
  intro m
  induction m with
  | zero =>
    intro s n hn hfail hlt hok
    obtain ⟨n', rfl⟩ : ∃ n', n = n' + 1 := ⟨n - 1, by omega⟩
    rw [List.range'_succ]
    rw [retryLoop_cons_ok (by simpa using hok)]
    simp
  | succ m ih =>
    intro s n hn hfail hlt hok
    obtain ⟨n', rfl⟩ : ∃ n', n = n' + 1 := ⟨n - 1, by omega⟩
    rw [List.range'_succ]
    obtain ⟨e, he⟩ := hfail 0 (Nat.succ_pos m)
    rw [retryLoop_cons_error_retry (by simpa using he)
      (by simpa using hlt 0 (Nat.succ_pos m))]
    rw [ih (s + 1) n' (by omega)
      (fun j hj => by simpa [Nat.add_assoc, Nat.add_comm 1 j] using hfail (j + 1) (by omega))
      (fun j hj => by simpa [Nat.add_assoc, Nat.add_comm 1 j] using hlt (j + 1) (by omega))
      (by simpa [Nat.add_assoc, Nat.add_comm 1 m] using hok)]
    simp [List.replicate_succ]

/-- If all `n ≥ 1` attempts starting at `s` fail, the intermediate ones with
retry budget left and the last one without, the loop re-raises the last
attempt's error after exactly `n` invocations and `n - 1` sleeps. -/
theorem retryLoop_range'_all_fail (transport : Nat → Except ε α) (message model : String)
    (response_model : σ) (mct max_retries : Int) (retry_delay : δ) (err : Nat → ε) :
    ∀ (n s : Nat), 1 ≤ n →
    (∀ j, j < n → transport (s + j) = .error (err (s + j))) →
    (∀ j, j + 1 < n → ((s + j : Nat) : Int) < max_retries) →
    ¬ ((s + (n - 1) : Nat) : Int) < max_retries →
    retryLoop transport message model response_model mct max_retries retry_delay
        (List.range' s n) =
      ⟨.raised (err (s + (n - 1))), n, List.replicate (n - 1) retry_delay,
       List.replicate n (structuredRequestOf message model response_model mct)⟩ := by
  intro n
  induction n with
  | zero => intro s h; omega
  | succ n ih =>
    intro s hn hfail hmid hlast
    cases n with
    | zero =>
      rw [List.range'_succ]
      rw [retryLoop_cons_error_raise (by simpa using hfail 0 Nat.one_pos)
        (by simpa using hlast)]
      simp [List.range']
    | succ k =>
      rw [List.range'_succ]
      rw [retryLoop_cons_error_retry (by simpa using hfail 0 (by omega))
        (by simpa using hmid 0 (by omega))]
      rw [ih (s + 1) (by omega)
        (fun j hj => by
          have h := hfail (j + 1) (by omega)
          rwa [show s + (j + 1) = s + 1 + j by omega] at h)
        (fun j hj => by
          have h := hmid (j + 1) (by omega)
          rwa [show s + (j + 1) = s + 1 + j by omega] at h)
        (by
          have h := hlast
          rwa [show s + (k + 1 + 1 - 1) = s + 1 + (k + 1 - 1) by omega] at h)]
      rw [show s + 1 + (k + 1 - 1) = s + (k + 1 + 1 - 1) by omega]
      simp [List.replicate_succ]

/-- The loop never issues more transport calls than there are attempt
indices. -/
theorem retryLoop_invocations_le_length (transport : Nat → Except ε α)
    (message model : String) (response_model : σ) (mct max_retries : Int)
    (retry_delay : δ) :
    ∀ l : List Nat,
    (retryLoop transport message model response_model mct max_retries retry_delay l).invocations
      ≤ l.length := by
  intro l
  induction l with
  | nil => simp [retryLoop_nil]
  | cons i rest ih =>
    cases h : transport i with
    | ok a => rw [retryLoop_cons_ok h]; simp
    | error e =>
      by_cases hlt : (i : Int) < max_retries
      · rw [retryLoop_cons_error_retry h hlt]
        simpa using Nat.succ_le_succ ih
      · rw [retryLoop_cons_error_raise h hlt]; simp

/-- On a nonempty list of attempt indices the loop issues at least one
transport call. -/
theorem retryLoop_one_le_invocations (transport : Nat → Except ε α)
    (message model : String) (response_model : σ) (mct max_retries : Int)
    (retry_delay : δ) (i : Nat) (rest : List Nat) :
    1 ≤ (retryLoop transport message model response_model mct max_retries retry_delay
      (i :: rest)).invocations := by
  cases h : transport i with
  | ok a => rw [retryLoop_cons_ok h]
  | error e =>
    by_cases hlt : (i : Int) < max_retries
    · rw [retryLoop_cons_error_retry h hlt]
      exact Nat.le_add_left 1 _
    · rw [retryLoop_cons_error_raise h hlt]

/-- Every transport call of the loop carries the same request, built from
the call's parameters. -/
theorem retryLoop_requests_eq_replicate (transport : Nat → Except ε α)
    (message model : String) (response_model : σ) (mct max_retries : Int)
    (retry_delay : δ) :
    ∀ l : List Nat,
    (retryLoop transport message model response_model mct max_retries retry_delay l).requests =
      List.replicate
        (retryLoop transport message model response_model mct max_retries retry_delay l).invocations
        (structuredRequestOf message model response_model mct) := by
  intro l
  induction l with
  | nil => rfl
  | cons i rest ih =>
    cases h : transport i with
    | ok a => rw [retryLoop_cons_ok h]; simp
    | error e =>
      by_cases hlt : (i : Int) < max_retries
      · rw [retryLoop_cons_error_retry h hlt]
        dsimp only
        rw [ih, List.replicate_succ]
      · rw [retryLoop_cons_error_raise h hlt]; simp

/-- If attempts `s, …, s + m` all fail with retry budget left and at least
one further attempt index is available, the loop issues at least `m + 2`
transport calls: every failure with budget left is followed by a retry. -/
theorem retryLoop_range'_invocations_lb (transport : Nat → Except ε α)
    (message model : String) (response_model : σ) (mct max_retries : Int)
    (retry_delay : δ) :
    ∀ (m s n : Nat), m + 1 < n →
    (∀ j, j ≤ m → ∃ e, transport (s + j) = .error e) →
    (∀ j, j ≤ m → ((s + j : Nat) : Int) < max_retries) →
    m + 2 ≤ (retryLoop transport message model response_model mct max_retries retry_delay
      (List.range' s n)).invocations := by
  intro m
  induction m with
  | zero =>
    intro s n hn hfail hlt
    obtain ⟨n', rfl⟩ : ∃ n', n = n' + 1 := ⟨n - 1, by omega⟩
    rw [List.range'_succ]
    obtain ⟨e, he⟩ := hfail 0 (Nat.le_refl 0)
    rw [retryLoop_cons_error_retry (by simpa using he)
      (by simpa using hlt 0 (Nat.le_refl 0))]
    dsimp only
    obtain ⟨n'', rfl⟩ : ∃ n'', n' = n'' + 1 := ⟨n' - 1, by omega⟩
    rw [List.range'_succ]
    have hpos := retryLoop_one_le_invocations transport message model response_model
      mct max_retries retry_delay (s + 1) (List.range' (s + 1 + 1) n'')
    omega
  | succ m ih =>
    intro s n hn hfail hlt
    obtain ⟨n', rfl⟩ : ∃ n', n = n' + 1 := ⟨n - 1, by omega⟩
    rw [List.range'_succ]
    obtain ⟨e, he⟩ := hfail 0 (Nat.zero_le _)
    rw [retryLoop_cons_error_retry (by simpa using he)
      (by simpa using hlt 0 (Nat.zero_le _))]
    dsimp only
    have h := ih (s + 1) n' (by omega)
      (fun j hj => by
        obtain ⟨e', he'⟩ := hfail (j + 1) (by omega)
        exact ⟨e', by rwa [show s + (j + 1) = s + 1 + j by omega] at he'⟩)
      (fun j hj => by
        have h' := hlt (j + 1) (by omega)
        rwa [show s + (j + 1) = s + 1 + j by omega] at h')
    omega

/-- On a nonempty range of attempt indices whose last index has no retry
budget, the loop ends in exactly one of two ways: it returns a value some
attempt's transport call produced with `.ok`, or it re-raises an error some
attempt's transport call produced.  The `noneFallthrough` outcome is
impossible. -/
theorem retryLoop_range'_result_cases (transport : Nat → Except ε α)
    (message model : String) (response_model : σ) (mct max_retries : Int)
    (retry_delay : δ) :
    ∀ (n s : Nat), 1 ≤ n →
    ¬ ((s + (n - 1) : Nat) : Int) < max_retries →
    (∃ i a, s ≤ i ∧ i < s + n ∧ transport i = .ok a ∧
      (retryLoop transport message model response_model mct max_retries retry_delay
        (List.range' s n)).result = .returned a) ∨
    (∃ i e, s ≤ i ∧ i < s + n ∧ transport i = .error e ∧
      (retryLoop transport message model response_model mct max_retries retry_delay
        (List.range' s n)).result = .raised e) := by
  intro n
  induction n with
  | zero => intro s h; omega
  | succ n ih =>
    intro s hn hlast
    rw [List.range'_succ]
    cases h : transport s with
    | ok a =>
      left
      exact ⟨s, a, Nat.le_refl s, by omega, h, by rw [retryLoop_cons_ok h]⟩
    | error e =>
      by_cases hlt : (s : Int) < max_retries
      · cases n with
        | zero => exact absurd hlt (by simpa using hlast)
        | succ k =>
          rw [retryLoop_cons_error_retry h hlt]
          dsimp only
          rcases ih (s + 1) (by omega)
              (by rwa [show s + 1 + (k + 1 - 1) = s + (k + 1 + 1 - 1) by omega]) with
            ⟨i, a, hi1, hi2, hta, hres⟩ | ⟨i, e', hi1, hi2, hte, hres⟩
          · exact Or.inl ⟨i, a, by omega, by omega, hta, hres⟩
          · exact Or.inr ⟨i, e', by omega, by omega, hte, hres⟩
      · right
        exact ⟨s, e, Nat.le_refl s, by omega, h, by rw [retryLoop_cons_error_raise h hlt]⟩

/-- The slept delays of a loop run over a range whose last index has no
retry budget (or over the empty range): one pause of exactly `retry_delay`
before each retry, i.e. one fewer than the number of invocations, and none
anywhere else. -/
theorem retryLoop_range'_sleeps (transport : Nat → Except ε α)
    (message model : String) (response_model : σ) (mct max_retries : Int)
    (retry_delay : δ) :
    ∀ (n s : Nat),
    (n = 0 ∨ ¬ ((s + (n - 1) : Nat) : Int) < max_retries) →
    (retryLoop transport message model response_model mct max_retries retry_delay
        (List.range' s n)).sleeps =
      List.replicate
        ((retryLoop transport message model response_model mct max_retries retry_delay
          (List.range' s n)).invocations - 1) retry_delay := by
  intro n
  induction n with
  | zero => intro s _; rfl
  | succ n ih =>
    intro s hcond
    have hlast : ¬ ((s + (n + 1 - 1) : Nat) : Int) < max_retries := by
      rcases hcond with h | h
      · omega
      · exact h
    rw [List.range'_succ]
    cases h : transport s with
    | ok a => rw [retryLoop_cons_ok h]; simp
    | error e =>
      by_cases hlt : (s : Int) < max_retries
      · cases n with
        | zero => exact absurd hlt (by simpa using hlast)
        | succ k =>
          rw [retryLoop_cons_error_retry h hlt]
          dsimp only
          have hpos : 1 ≤ (retryLoop transport message model response_model mct
              max_retries retry_delay (List.range' (s + 1) (k + 1))).invocations := by
            rw [List.range'_succ]
            exact retryLoop_one_le_invocations transport message model response_model
              mct max_retries retry_delay (s + 1) (List.range' (s + 1 + 1) k)
          rw [ih (s + 1)
            (Or.inr (by rwa [show s + 1 + (k + 1 - 1) = s + (k + 1 + 1 - 1) by omega]))]
          rw [show (retryLoop transport message model response_model mct max_retries
              retry_delay (List.range' (s + 1) (k + 1))).invocations + 1 - 1 =
              ((retryLoop transport message model response_model mct max_retries
                retry_delay (List.range' (s + 1) (k + 1))).invocations - 1) + 1 by omega]
          rw [List.replicate_succ]
      · rw [retryLoop_cons_error_raise h hlt]; simp

/-! ### Claim theorems -/

/-- Claim C1: for every attempt index `i` with `0 ≤ i ≤ max_retries`, if the
transport raises an error on attempts `0 … i-1` and returns a successfully
parsed object on attempt `i`, then `get_completion_structured` returns that
parsed object and performs exactly `i + 1` transport invocations. -/
theorem get_completion_structured_first_success
    (transport : Nat → Except ε α) (message model : String) (response_model : σ)
    (mct max_retries : Int) (retry_delay : δ) (i : Nat) (a : α)
    (hle : (i : Int) ≤ max_retries)
    (hfail : ∀ j, j < i → ∃ e, transport j = .error e)
    (hok : transport i = .ok a) :
    (get_completion_structured transport message response_model model mct
      max_retries retry_delay).result = .returned a ∧
    (get_completion_structured transport message response_model model mct
      max_retries retry_delay).invocations = i + 1 := by
  unfold get_completion_structured
  rw [List.range_eq_range']
  rw [retryLoop_range'_success transport message model response_model mct
    max_retries retry_delay a i 0 ((max_retries + 1).toNat) (by omega)
    (fun j hj => by simpa using hfail j hj)
    (fun j hj => by omega)
    (by simpa using hok)]
  exact ⟨rfl, rfl⟩

/-- Witness for C1: with `max_retries = 2` and a transport failing on
attempts 0 and 1 and succeeding on attempt 2, the call returns the parsed
object after exactly 3 invocations. -/
theorem get_completion_structured_first_success_witness :
    (get_completion_structured flakyTransport "prompt" "schema" "gpt-4.1" 1024
      2 (1 : Nat)).result = .returned 42 ∧
    (get_completion_structured flakyTransport "prompt" "schema" "gpt-4.1" 1024
      2 (1 : Nat)).invocations = 3 :=
  get_completion_structured_first_success flakyTransport "prompt" "gpt-4.1"
    "schema" 1024 2 1 2 42 (by decide)
    (fun j hj => ⟨(), if_pos hj⟩) rfl

/-- Claim C2: if the transport raises an error on all `max_retries + 1`
attempts, `get_completion_structured` re-raises the error of the last
attempt (attempt `max_retries`) and returns no value. -/
theorem get_completion_structured_exhausts_and_reraises
    (transport : Nat → Except ε α) (message model : String) (response_model : σ)
    (mct max_retries : Int) (retry_delay : δ) (err : Nat → ε)
    (hmr : 0 ≤ max_retries)
    (herr : ∀ j : Nat, (j : Int) ≤ max_retries → transport j = .error (err j)) :
    (get_completion_structured transport message response_model model mct
      max_retries retry_delay).result = .raised (err max_retries.toNat) ∧
    (get_completion_structured transport message response_model model mct
      max_retries retry_delay).invocations = max_retries.toNat + 1 ∧
    (∀ a, (get_completion_structured transport message response_model model mct
      max_retries retry_delay).result ≠ .returned a) := by
  unfold get_completion_structured
  rw [List.range_eq_range']
  rw [retryLoop_range'_all_fail transport message model response_model mct
    max_retries retry_delay err ((max_retries + 1).toNat) 0 (by omega)
    (fun j hj => by simpa using herr j (by omega))
    (fun j hj => by omega)
    (by omega)]
  rw [show 0 + ((max_retries + 1).toNat - 1) = max_retries.toNat by omega]
  refine ⟨rfl, by dsimp only; omega, fun a => by simp⟩

/-- Witness for C2: with `max_retries = 2` and a transport failing on every
attempt with error "boom", the call raises "boom" after 3 invocations and
returns nothing. -/
theorem get_completion_structured_exhausts_and_reraises_witness :
    (get_completion_structured failingTransport "prompt" "schema" "gpt-4.1"
      1024 2 (1 : Nat)).result = .raised "boom" ∧
    (get_completion_structured failingTransport "prompt" "schema" "gpt-4.1"
      1024 2 (1 : Nat)).invocations = 3 ∧
    (∀ a, (get_completion_structured failingTransport "prompt" "schema"
      "gpt-4.1" 1024 2 (1 : Nat)).result ≠ .returned a) :=
  get_completion_structured_exhausts_and_reraises failingTransport "prompt"
    "gpt-4.1" "schema" 1024 2 1 (fun _ => "boom") (by decide)
    (fun j hj => rfl)

/-- Claim C3: with a nonnegative retry budget, a call to
`get_completion_structured` either returns an object that some transport
attempt produced as a successfully parsed, schema-conforming value (so any
property guaranteed of every transport success holds of it), or ends by
raising an error; there is no partial-success outcome. -/
theorem get_completion_structured_returns_only_validated
    (transport : Nat → Except ε α) (message model : String) (response_model : σ)
    (mct max_retries : Int) (retry_delay : δ) (Valid : α → Prop)
    (hmr : 0 ≤ max_retries)
    (hT : ∀ i x, transport i = .ok x → Valid x) :
    (∃ a, (get_completion_structured transport message response_model model mct
        max_retries retry_delay).result = .returned a ∧ Valid a) ∨
    (∃ e, (get_completion_structured transport message response_model model mct
        max_retries retry_delay).result = .raised e) := by
  unfold get_completion_structured
  rw [List.range_eq_range']
  rcases retryLoop_range'_result_cases transport message model response_model
      mct max_retries retry_delay ((max_retries + 1).toNat) 0 (by omega)
      (by omega) with
    ⟨i, a, _, _, hta, hres⟩ | ⟨i, e, _, _, _, hres⟩
  · exact Or.inl ⟨a, hres, hT i a hta⟩
  · exact Or.inr ⟨e, hres⟩

/-- Witness for C3: with a transport whose successes are always the value
42, the call returns 42 or raises. -/
theorem get_completion_structured_returns_only_validated_witness :
    (∃ a, (get_completion_structured okTransport "prompt" "schema" "gpt-4.1"
        1024 2 (1 : Nat)).result = .returned a ∧ a = 42) ∨
    (∃ e, (get_completion_structured okTransport "prompt" "schema" "gpt-4.1"
        1024 2 (1 : Nat)).result = .raised e) :=
  get_completion_structured_returns_only_validated okTransport "prompt"
    "gpt-4.1" "schema" 1024 2 1 (fun n => n = 42) (by decide)
    (fun i x hx => (Except.ok.inj hx).symm)

/-- Claim C4: the retry policy treats every raised error uniformly: for any
error type and any errors whatsoever, if attempts `0 … i` all fail and
`i < max_retries`, attempt `i + 1` is issued, so at least `i + 2` transport
invocations occur. -/
theorem get_completion_structured_retries_any_error
    (transport : Nat → Except ε α) (message model : String) (response_model : σ)
    (mct max_retries : Int) (retry_delay : δ) (i : Nat)
    (hi : (i : Int) < max_retries)
    (hfail : ∀ j, j ≤ i → ∃ e, transport j = .error e) :
    i + 2 ≤ (get_completion_structured transport message response_model model
      mct max_retries retry_delay).invocations := by
  unfold get_completion_structured
  rw [List.range_eq_range']
  exact retryLoop_range'_invocations_lb transport message model response_model
    mct max_retries retry_delay i 0 ((max_retries + 1).toNat) (by omega)
    (fun j hj => by simpa using hfail j hj)
    (fun j hj => by omega)

/-- Witness for C4: with `max_retries = 2` and a transport failing on
attempts 0 and 1, at least 3 invocations happen. -/
theorem get_completion_structured_retries_any_error_witness :
    1 + 2 ≤ (get_completion_structured failingTransport "prompt" "schema"
      "gpt-4.1" 1024 2 (1 : Nat)).invocations :=
  get_completion_structured_retries_any_error failingTransport "prompt"
    "gpt-4.1" "schema" 1024 2 1 1 (by decide)
    (fun j hj => ⟨"boom", rfl⟩)

/-- Claim C5: every call to `get_completion_structured` performs at most
`max_retries + 1` transport invocations, and with `max_retries = 0` exactly
one invocation occurs, whatever the transport does. -/
theorem get_completion_structured_bounded_attempts
    (transport : Nat → Except ε α) (message model : String) (response_model : σ)
    (mct max_retries : Int) (retry_delay : δ) :
    (get_completion_structured transport message response_model model mct
      max_retries retry_delay).invocations ≤ (max_retries + 1).toNat ∧
    (max_retries = 0 →
      (get_completion_structured transport message response_model model mct
        max_retries retry_delay).invocations = 1) := by
  constructor
  · unfold get_completion_structured
    have h := retryLoop_invocations_le_length transport message model
      response_model mct max_retries retry_delay
      (List.range ((max_retries + 1).toNat))
    simpa using h
  · intro h0
    subst h0
    unfold get_completion_structured
    simp only [show ((0 : Int) + 1).toNat = 1 from rfl,
      show List.range 1 = [0] from rfl]
    cases h : transport 0 with
    | ok a => rw [retryLoop_cons_ok h]
    | error e =>
      rw [retryLoop_cons_error_raise h (by simp)]

/-- Witness for C5: with `max_retries = 0` and an always-failing transport,
the bound holds and exactly one invocation occurs. -/
theorem get_completion_structured_bounded_attempts_witness :
    (get_completion_structured failingTransport "prompt" "schema" "gpt-4.1"
      1024 0 (1 : Nat)).invocations ≤ ((0 : Int) + 1).toNat ∧
    ((0 : Int) = 0 →
      (get_completion_structured failingTransport "prompt" "schema" "gpt-4.1"
        1024 0 (1 : Nat)).invocations = 1) :=
  get_completion_structured_bounded_attempts failingTransport "prompt"
    "gpt-4.1" "schema" 1024 0 1

/-- Claim C6: within one call, a pause of exactly the configured
`retry_delay` is inserted before every retry and nowhere else: the slept
delays are `invocations - 1` copies of `retry_delay` (constant backoff; no
pause after a success or after the final failed attempt). -/
theorem get_completion_structured_constant_backoff
    (transport : Nat → Except ε α) (message model : String) (response_model : σ)
    (mct max_retries : Int) (retry_delay : δ) :
    (get_completion_structured transport message response_model model mct
      max_retries retry_delay).sleeps =
      List.replicate
        ((get_completion_structured transport message response_model model mct
          max_retries retry_delay).invocations - 1) retry_delay := by
  unfold get_completion_structured
  rw [List.range_eq_range']
  exact retryLoop_range'_sleeps transport message model response_model mct
    max_retries retry_delay ((max_retries + 1).toNat) 0 (by omega)

/-- Claim C9: with `max_retries < 0` the loop body never executes:
`get_completion_structured` performs zero transport invocations, sleeps
never, raises no error, and yields the implicit `None` fall-through, which
is not a schema instance. -/
theorem get_completion_structured_negative_retries
    (transport : Nat → Except ε α) (message model : String) (response_model : σ)
    (mct max_retries : Int) (retry_delay : δ)
    (h : max_retries < 0) :
    (get_completion_structured transport message response_model model mct
      max_retries retry_delay).result = .noneFallthrough ∧
    (get_completion_structured transport message response_model model mct
      max_retries retry_delay).invocations = 0 ∧
    (∀ e, (get_completion_structured transport message response_model model mct
      max_retries retry_delay).result ≠ .raised e) ∧
    (∀ a, (get_completion_structured transport message response_model model mct
      max_retries retry_delay).result ≠ .returned a) := by
  have heq : get_completion_structured transport message response_model model
      mct max_retries retry_delay = ⟨.noneFallthrough, 0, [], []⟩ := by
    unfold get_completion_structured
    rw [show (max_retries + 1).toNat = 0 by omega]
    rfl
  refine ⟨by rw [heq], by rw [heq], fun e => by rw [heq]; simp,
    fun a => by rw [heq]; simp⟩

/-- Witness for C9: `max_retries = -1` gives zero invocations and the
`None` fall-through even though the transport would succeed. -/
theorem get_completion_structured_negative_retries_witness :
    (get_completion_structured okTransport "prompt" "schema" "gpt-4.1" 1024
      (-1) (1 : Nat)).result = .noneFallthrough ∧
    (get_completion_structured okTransport "prompt" "schema" "gpt-4.1" 1024
      (-1) (1 : Nat)).invocations = 0 ∧
    (∀ e, (get_completion_structured okTransport "prompt" "schema" "gpt-4.1"
      1024 (-1) (1 : Nat)).result ≠ .raised e) ∧
    (∀ a, (get_completion_structured okTransport "prompt" "schema" "gpt-4.1"
      1024 (-1) (1 : Nat)).result ≠ .returned a) :=
  get_completion_structured_negative_retries okTransport "prompt" "gpt-4.1"
    "schema" 1024 (-1) 1 (by decide)

/-- Claim C10: every attempt of one call issues the transport request with
identical parameters: the requests issued are `invocations` copies of the
single request built from the prompt (as one user message), the model
identifier, the response-format schema and the token budget. -/
theorem get_completion_structured_identical_requests
    (transport : Nat → Except ε α) (message model : String) (response_model : σ)
    (mct max_retries : Int) (retry_delay : δ) :
    (get_completion_structured transport message response_model model mct
      max_retries retry_delay).requests =
      List.replicate
        ((get_completion_structured transport message response_model model mct
          max_retries retry_delay).invocations)
        ⟨model, [⟨"user", message⟩], response_model, mct⟩ := by
  unfold get_completion_structured
  exact retryLoop_requests_eq_replicate transport message model response_model
    mct max_retries retry_delay (List.range ((max_retries + 1).toNat))

/-- Claim C7: `get_completion` performs exactly one transport invocation
per call, whatever the outcome, and any transport failure propagates
immediately and unmodified to the caller; no retry loop runs. -/
theorem get_completion_single_invocation
    (transport : RawRequest → Except ε ChatResponse) (message model : String) :
    (get_completion transport message model).invocations = 1 ∧
    (∀ e, transport (rawRequestOf message model) = .error e →
      (get_completion transport message model).result = .raised e) := by
  constructor
  · cases h : transport (rawRequestOf message model) with
    | error e => simp [get_completion, h]
    | ok resp =>
      cases hc : resp.choices with
      | nil => simp [get_completion, h, hc]
      | cons c cs => simp [get_completion, h, hc]
  · intro e he
    simp [get_completion, he]

/-- Witness for C7: an always-failing raw transport produces one invocation
and the propagated error. -/
theorem get_completion_single_invocation_witness :
    (get_completion rawFailTransport "ping" "gpt-4.1").invocations = 1 ∧
    (get_completion rawFailTransport "ping" "gpt-4.1").result = .raised "down" :=
  ⟨(get_completion_single_invocation rawFailTransport "ping" "gpt-4.1").1,
   (get_completion_single_invocation rawFailTransport "ping" "gpt-4.1").2
     "down" rfl⟩

/-- Claim C8: on success `get_completion` returns the content of the first
choice of the transport's response, unmodified. -/
theorem get_completion_returns_first_choice
    (transport : RawRequest → Except ε ChatResponse) (message model : String)
    (resp : ChatResponse) (c : Choice) (cs : List Choice)
    (hok : transport (rawRequestOf message model) = .ok resp)
    (hchoices : resp.choices = c :: cs) :
    (get_completion transport message model).result = .ok c.message.content := by
  simp [get_completion, hok, hchoices]

/-- Witness for C8: a transport answering with one choice "pong" makes
`get_completion` return "pong". -/
theorem get_completion_returns_first_choice_witness :
    (get_completion rawPongTransport "ping" "gpt-4.1").result = .ok "pong" :=
  get_completion_returns_first_choice rawPongTransport "ping" "gpt-4.1"
    ⟨[⟨⟨"assistant", "pong"⟩⟩]⟩ ⟨⟨"assistant", "pong"⟩⟩ [] rfl rfl

end Llm
